import Mathlib

/-!
# Verification of the molecule-mutation-backend request pipeline

Shallow embedding of the Express request handlers of the repository
(`server.js` — the basic variant; `src/unnamed/part_001` — the basic variant
with the explicit empty-content check; `src/unnamed/part_003` — the extended
variant with the RDKit structure-validation step), together with proofs about
the claims of the specification.

JavaScript values flowing through the handlers are modelled by a small JSON
value type.  `Option Json` encodes a possibly-`undefined` value (`none` is
JavaScript `undefined`, `some Json.null` is JavaScript `null`); both are falsy
and neither is a string, so the handlers below treat them alike everywhere
except in `res.json` serialisation, where `undefined`-valued properties are
dropped and `null`-valued ones are kept (mirrored by `mkObj`).

The outbound backends (the OpenAI generation call, the RDKit validation call)
and the JavaScript runtime's `JSON.parse` are external collaborators: they are
modelled as components of a `World` parameter, and each handler additionally
returns the list of outbound network events it issued.
-/

namespace MoleculeMutation

/-- A JSON value, as produced by `JSON.parse` and consumed by `res.json`.
Numbers are modelled as integers: no handler path performs arithmetic, so the
fractional part never matters (only truthiness of `0`). -/
inductive Json where
  | null : Json
  | bool : Bool → Json
  | num : Int → Json
  | str : String → Json
  | arr : List Json → Json
  | obj : List (String × Json) → Json
deriving Repr

/-- JavaScript truthiness of a JSON value (`NaN` is unreachable here since no
handler path produces it). -/
def Json.truthy : Json → Bool
  | Json.null => false
  | Json.bool b => b
  | Json.num n => n != 0
  | Json.str s => s != ""
  | Json.arr _ => true
  | Json.obj _ => true

/-- Truthiness of a possibly-`undefined` JavaScript value. -/
def jsTruthy : Option Json → Bool
  | none => false
  | some j => j.truthy

/-- First binding of a key in an object's member list.  Objects reaching the
handlers come from `JSON.parse` or from object literals in the code, both of
which produce member lists with distinct keys, so first-match lookup agrees
with JavaScript property access. -/
def lookupKey : List (String × Json) → String → Option Json
  | [], _ => none
  | (k, v) :: rest, key => if k == key then some v else lookupKey rest key

/-- Property access `x.k` on a value known not to be `null`/`undefined`
(JavaScript returns `undefined` for missing properties and for access on
non-object primitives). -/
def getF : Json → String → Option Json
  | Json.obj l, k => lookupKey l k
  | _, _ => none

/-- Optional-chaining access `x?.k`: `undefined` on a `null`/`undefined`
receiver instead of a TypeError. -/
def optGet : Option Json → String → Option Json
  | none, _ => none
  | some Json.null, _ => none
  | some j, k => getF j k

/-- The JavaScript idiom `x || null`: `x` if truthy, otherwise `null`. -/
def jsOrNull (x : Option Json) : Option Json :=
  if jsTruthy x then x else some Json.null

/-- Destructuring a request-body field, as in
`const { base_molecule } = req.body || {}`: a falsy or non-object body
contributes `undefined` for every field. -/
def bodyField (body : Option Json) (k : String) : Option Json :=
  match body with
  | some (Json.obj l) => lookupKey l k
  | _ => none

/-- Building the object literal passed to `res.json`: properties whose value
evaluated to `undefined` are dropped by JSON serialisation, `null` ones kept. -/
def mkFields (l : List (String × Option Json)) : List (String × Json) :=
  l.filterMap (fun p => p.2.map (fun v => (p.1, v)))

def mkObj (l : List (String × Option Json)) : Json :=
  Json.obj (mkFields l)

/-- The top-level property names of a JSON object. -/
def Json.topKeys : Json → List String
  | Json.obj l => l.map Prod.fst
  | _ => []

/-- An outbound network event issued while handling one inbound request. -/
inductive Event where
  | genCall : Event
  | validateCall : String → Event
deriving Repr, DecidableEq

/-- Outcome of the generation-backend call
(`client.chat.completions.create` / `client.responses.create`):
either the promise rejects (carrying `err?.response?.data?.error?.message`
and `err.message` as observed by the catch blocks), or it resolves and the
handler extracts the content text (`none` models a `null`/absent content). -/
inductive GenOutcome where
  | transportError : Option String → String → GenOutcome
  | content : Option String → GenOutcome

/-- Outcome of one `axios.post` to the RDKit validation service: a transport
error (rejected promise) or a `response.data` payload returned verbatim. -/
inductive ValidatorResponse where
  | transportError : ValidatorResponse
  | payload : Json → ValidatorResponse

/-- The external collaborators of one request: the generation backend's
behaviour, the RDKit backend's behaviour per submitted SMILES string, the
runtime's `JSON.parse` (`none` when it throws a SyntaxError) with the
SyntaxError message per failing text, and the runtime's TypeError message for
property access on `null`. -/
structure World where
  gen : GenOutcome
  validator : String → ValidatorResponse
  parse : String → Option Json
  parseErrMsg : String → String
  typeErrMsg : String

/-- An HTTP response: status code plus serialised JSON body. -/
structure HttpResponse where
  status : Nat
  body : Json
deriving Repr

/-- `{ valid: false, error: "No SMILES provided" }` (part_003, line 27). -/
def noSmilesProvided : Json :=
  Json.obj [("valid", Json.bool false), ("error", Json.str "No SMILES provided")]

/-- `{ valid: false, error: "RDKit service error" }` (part_003, line 37). -/
def rdkitServiceError : Json :=
  Json.obj [("valid", Json.bool false), ("error", Json.str "RDKit service error")]

/-- `validateSmiles` (part_003, lines 25–39): guard rejects falsy or
non-string candidates without a network call; otherwise one `axios.post` to
the RDKit service, returning its `response.data` verbatim, with a transport
failure converted to `rdkitServiceError`.  Alongside the returned value, the
list of network events issued. -/
def validateSmiles (smiles : Option Json) (validator : String → ValidatorResponse) :
    Json × List Event :=
  match smiles with
  | some (Json.str s) =>
    if s == "" then (noSmilesProvided, [])
    else
      match validator s with
      | ValidatorResponse.payload d => (d, [Event.validateCall s])
      | ValidatorResponse.transportError => (rdkitServiceError, [Event.validateCall s])
  | _ => (noSmilesProvided, [])

/-- `res.status(400).json({ error: "base_molecule and mutation are required." })`,
common to all variants. -/
def badInputResponse : HttpResponse :=
  ⟨400, Json.obj [("error", Json.str "base_molecule and mutation are required.")]⟩

/-- The `a || b || "Unknown server error"` message chain of the catch blocks
(part_001 lines 165–168, part_003 lines 245–248): first truthy of
`err?.response?.data?.error?.message`, `err.message`, and the fallback. -/
def resolveMsg (respMsg : Option String) (msg : String) : String :=
  match respMsg with
  | some r => if r != "" then r else if msg != "" then msg else "Unknown server error"
  | none => if msg != "" then msg else "Unknown server error"

/-- `res.status(500).json({ error: "Failed to analyze mutation.", message })`
(part_001 lines 163–169, part_003 lines 243–249). -/
def err500 (m : String) : HttpResponse :=
  ⟨500, Json.obj [("error", Json.str "Failed to analyze mutation."),
                  ("message", Json.str m)]⟩

/-- The `analysis` sub-object of the rejection payload (part_003, lines
212–219): the parsed result minus `structures`. -/
def analysisMinusStructures (data : Json) : Json :=
  mkObj [("summary", getF data "summary"),
         ("key_changes", getF data "key_changes"),
         ("mechanisms", getF data "mechanisms"),
         ("example_reactions", getF data "example_reactions"),
         ("explanation_levels", getF data "explanation_levels"),
         ("iupac_names", getF data "iupac_names")]

/-- The 400 rejection body of part_003 (lines 207–220). -/
def rejectionBody (data rdkitResult : Json) : Json :=
  mkObj [("ok", some (Json.bool false)),
         ("error", some (Json.str "RDKit rejected the mutated SMILES prediction.")),
         ("rdkit_error", getF rdkitResult "error"),
         ("ai_structures", getF data "structures"),
         ("analysis", some (analysisMinusStructures data))]

/-- The 200 success body `responsePayload` of part_003 (lines 224–237). -/
def responsePayload (data rdkitResult : Json) (baseGuess : Option Json) : Json :=
  mkObj [("ok", some (Json.bool true)),
         ("canonical_structures", some (mkObj
           [("mutated_smiles_canonical", getF rdkitResult "canonical_smiles"),
            ("base_smiles_guess", baseGuess)])),
         ("ai_structures", getF data "structures"),
         ("summary", getF data "summary"),
         ("key_changes", getF data "key_changes"),
         ("mechanisms", getF data "mechanisms"),
         ("example_reactions", getF data "example_reactions"),
         ("explanation_levels", getF data "explanation_levels"),
         ("iupac_names", getF data "iupac_names")]

/-- The part_003 branch after parsing and SMILES validation (lines 204–239):
either the 400 rejection payload (`!rdkitResult.valid`) or the 200 success
payload.  Plain property access on `data` or `rdkitResult` when either is
`null` raises a TypeError caught by the outer catch, yielding the 500 path. -/
def mkResponse003 (w : World) (data rdkitResult : Json) (baseGuess : Option Json) :
    HttpResponse :=
  match rdkitResult with
  | Json.null => err500 (resolveMsg none w.typeErrMsg)
  | _ =>
    if !(jsTruthy (getF rdkitResult "valid")) then
      match data with
      | Json.null => err500 (resolveMsg none w.typeErrMsg)
      | _ => ⟨400, rejectionBody data rdkitResult⟩
    else
      match data with
      | Json.null => err500 (resolveMsg none w.typeErrMsg)
      | _ => ⟨200, responsePayload data rdkitResult baseGuess⟩

/-- part_003, lines 197–239: extract the SMILES guesses
(`data?.structures?.mutated_smiles_guess || null`), validate the mutated one
against the RDKit service, and build the rejection or success response. -/
def afterParse003 (data : Json) (w : World) : HttpResponse × List Event :=
  let mutatedSmilesGuess := jsOrNull (optGet (optGet (some data) "structures") "mutated_smiles_guess")
  let baseSmilesGuess := jsOrNull (optGet (optGet (some data) "structures") "base_smiles_guess")
  let vres := validateSmiles mutatedSmilesGuess w.validator
  (mkResponse003 w data vres.1 baseSmilesGuess, vres.2)

/-- The extended-variant handler `app.post("/api/mutation-analysis")` of
part_003 (lines 48–251).  Input validation happens before the try block; the
generation call, `JSON.parse` of its content (`JSON.parse(null)` coerces to
the JSON value `null`), SMILES validation and response assembly happen inside
it, with every thrown error converted to the 500 payload by the catch. -/
def handleMutation003 (body : Option Json) (w : World) : HttpResponse × List Event :=
  if !(jsTruthy (bodyField body "base_molecule")) || !(jsTruthy (bodyField body "mutation")) then
    (badInputResponse, [])
  else
    match w.gen with
    | GenOutcome.transportError respMsg msg =>
      (err500 (resolveMsg respMsg msg), [Event.genCall])
    | GenOutcome.content raw =>
      match raw with
      | none =>
        let r := afterParse003 Json.null w
        (r.1, Event.genCall :: r.2)
      | some s =>
        match w.parse s with
        | none => (err500 (resolveMsg none (w.parseErrMsg s)), [Event.genCall])
        | some data =>
          let r := afterParse003 data w
          (r.1, Event.genCall :: r.2)

/-- The handler of part_001 (lines 27–171): basic schema, explicit empty-content
check (`if (!rawContent) throw new Error("No content returned from OpenAI.")`),
explicit parse-failure rethrow, and `res.json(data)` on success. -/
def handleMutation001 (body : Option Json) (w : World) : HttpResponse × List Event :=
  if !(jsTruthy (bodyField body "base_molecule")) || !(jsTruthy (bodyField body "mutation")) then
    (badInputResponse, [])
  else
    match w.gen with
    | GenOutcome.transportError respMsg msg =>
      (err500 (resolveMsg respMsg msg), [Event.genCall])
    | GenOutcome.content raw =>
      match raw with
      | none => (err500 "No content returned from OpenAI.", [Event.genCall])
      | some s =>
        if s == "" then (err500 "No content returned from OpenAI.", [Event.genCall])
        else
          match w.parse s with
          | none =>
            (err500 "Failed to parse JSON from model. Check schema / response_format.",
             [Event.genCall])
          | some data => (⟨200, data⟩, [Event.genCall])

/-- `res.status(500).json({ error: "Failed to analyze mutation.", details })`
of `server.js` (lines 144–147), with `details: err?.message || "Unknown error"`. -/
def err500Basic (msg : String) : HttpResponse :=
  ⟨500, Json.obj [("error", Json.str "Failed to analyze mutation."),
                  ("details", Json.str (if msg != "" then msg else "Unknown error"))]⟩

/-- The handler of `server.js` (lines 31–149): basic five-field schema, content
text extracted via `response.output[0].content[0].text` (an absent text is a
thrown TypeError), `JSON.parse`, and `res.json(data)` on success. -/
def handleMutationBasic (body : Option Json) (w : World) : HttpResponse × List Event :=
  if !(jsTruthy (bodyField body "base_molecule")) || !(jsTruthy (bodyField body "mutation")) then
    (badInputResponse, [])
  else
    match w.gen with
    | GenOutcome.transportError _ msg => (err500Basic msg, [Event.genCall])
    | GenOutcome.content raw =>
      match raw with
      | none => (err500Basic w.typeErrMsg, [Event.genCall])
      | some s =>
        match w.parse s with
        | none => (err500Basic (w.parseErrMsg s), [Event.genCall])
        | some data => (⟨200, data⟩, [Event.genCall])

/-- Count of generation-backend calls in an event trace. -/
def countGen (l : List Event) : Nat :=
  l.countP (fun e => match e with | Event.genCall => true | _ => false)

/-- Count of RDKit-validation calls in an event trace. -/
def countVal (l : List Event) : Nat :=
  l.countP (fun e => match e with | Event.validateCall _ => true | _ => false)

/-! ## Sample inputs used by the concrete witnesses -/

/-- A schema-conformant parsed result for the extended variant (field values
are representative stand-ins; only their presence matters). -/
def sampleData : Json := Json.obj
  [("summary", Json.str "s"),
   ("key_changes", Json.obj []),
   ("mechanisms", Json.obj []),
   ("example_reactions", Json.arr []),
   ("explanation_levels", Json.obj []),
   ("iupac_names", Json.obj []),
   ("structures", Json.obj
     [("base_smiles_guess", Json.str "CCO"),
      ("mutated_smiles_guess", Json.str "CCCl"),
      ("notes", Json.str "n")])]

/-- The member list of `sampleData`. -/
def sampleDataList : List (String × Json) :=
  [("summary", Json.str "s"),
   ("key_changes", Json.obj []),
   ("mechanisms", Json.obj []),
   ("example_reactions", Json.arr []),
   ("explanation_levels", Json.obj []),
   ("iupac_names", Json.obj []),
   ("structures", Json.obj
     [("base_smiles_guess", Json.str "CCO"),
      ("mutated_smiles_guess", Json.str "CCCl"),
      ("notes", Json.str "n")])]

/-- The concrete request body of the spec's scenario. -/
def sampleBody : Option Json :=
  some (Json.obj [("base_molecule", Json.str "ethanol"),
                  ("mutation", Json.str "replace OH with Cl")])

/-- A world whose generation backend returns `sampleData` (serialised as the
text `"T"`) and whose validator accepts, returning a canonical SMILES. -/
def sampleWorldValid : World :=
  { gen := GenOutcome.content (some "T"),
    validator := fun _ => ValidatorResponse.payload
      (Json.obj [("valid", Json.bool true), ("canonical_smiles", Json.str "CCCl")]),
    parse := fun s => if s == "T" then some sampleData else none,
    parseErrMsg := fun _ => "Unexpected token",
    typeErrMsg := "Cannot read properties of null" }

/-- Like `sampleWorldValid`, but the validator rejects the candidate. -/
def sampleWorldInvalid : World :=
  { sampleWorldValid with
    validator := fun _ => ValidatorResponse.payload
      (Json.obj [("valid", Json.bool false), ("error", Json.str "bad identifier")]) }

/-- Like `sampleWorldValid`, but the generation backend returns no content. -/
def sampleWorldNoContent : World :=
  { sampleWorldValid with gen := GenOutcome.content none }

/-- Like `sampleWorldValid`, but the generation backend returns non-JSON text. -/
def sampleWorldBadJson : World :=
  { sampleWorldValid with
      gen := GenOutcome.content (some "oops")
      parse := fun _ => none }

/-- A parsed result whose `structures` object lacks `mutated_smiles_guess`. -/
def sampleDataNoGuessList : List (String × Json) :=
  [("summary", Json.str "s"),
   ("key_changes", Json.obj []),
   ("mechanisms", Json.obj []),
   ("example_reactions", Json.arr []),
   ("explanation_levels", Json.obj []),
   ("iupac_names", Json.obj []),
   ("structures", Json.obj
     [("base_smiles_guess", Json.str "CCO"), ("notes", Json.str "n")])]

/-- Like `sampleWorldValid`, but the parsed result lacks the mutated-SMILES
guess. -/
def sampleWorldNoGuess : World :=
  { sampleWorldValid with
      parse := fun _ => some (Json.obj sampleDataNoGuessList) }

/-! ## Helper lemmas -/

/-- Lookup in a to-be-serialised property list: entries whose value is
`undefined` are skipped, matching `mkFields` dropping them. -/
def lookupOpt : List (String × Option Json) → String → Option Json
  | [], _ => none
  | (k, v) :: rest, key =>
    if k == key then
      match v with
      | some x => some x
      | none => lookupOpt rest key
    else lookupOpt rest key

theorem lookupKey_mkFields (l : List (String × Option Json)) (key : String) :
    lookupKey (mkFields l) key = lookupOpt l key := by
  induction l with
  | nil => rfl
  | cons p rest ih =>
    obtain ⟨k, v⟩ := p
    cases v with
    | none => simpa [mkFields, lookupOpt] using ih
    | some x =>
      by_cases h : (k == key) = true
      · simp [mkFields, lookupOpt, lookupKey, h]
      · simpa [mkFields, lookupOpt, lookupKey, h] using ih

theorem getF_mkObj (l : List (String × Option Json)) (key : String) :
    getF (mkObj l) key = lookupOpt l key := by
  simpa [getF, mkObj] using lookupKey_mkFields l key

/-- Each of the six non-structures analysis fields of the rejection payload's
`analysis` object reads back the corresponding field of the parsed result. -/
theorem analysisMinusStructures_fields (data : Json) :
    optGet (some (analysisMinusStructures data)) "summary" = getF data "summary" ∧
    optGet (some (analysisMinusStructures data)) "key_changes" = getF data "key_changes" ∧
    optGet (some (analysisMinusStructures data)) "mechanisms" = getF data "mechanisms" ∧
    optGet (some (analysisMinusStructures data)) "example_reactions" = getF data "example_reactions" ∧
    optGet (some (analysisMinusStructures data)) "explanation_levels" = getF data "explanation_levels" ∧
    optGet (some (analysisMinusStructures data)) "iupac_names" = getF data "iupac_names" := by
  unfold analysisMinusStructures
  refine ⟨?_, ?_, ?_, ?_, ?_, ?_⟩
  · cases h : getF data "summary" <;>
      simp [optGet, mkObj, getF, lookupKey_mkFields, lookupOpt, h]
  · cases h : getF data "key_changes" <;>
      simp [optGet, mkObj, getF, lookupKey_mkFields, lookupOpt, h]
  · cases h : getF data "mechanisms" <;>
      simp [optGet, mkObj, getF, lookupKey_mkFields, lookupOpt, h]
  · cases h : getF data "example_reactions" <;>
      simp [optGet, mkObj, getF, lookupKey_mkFields, lookupOpt, h]
  · cases h : getF data "explanation_levels" <;>
      simp [optGet, mkObj, getF, lookupKey_mkFields, lookupOpt, h]
  · cases h : getF data "iupac_names" <;>
      simp [optGet, mkObj, getF, lookupKey_mkFields, lookupOpt, h]

/-- `validateSmiles` issues no generation call and at most one validation call. -/
theorem validateSmiles_trace (c : Option Json) (v : String → ValidatorResponse) :
    countGen (validateSmiles c v).2 = 0 ∧ countVal (validateSmiles c v).2 ≤ 1 := by
  unfold validateSmiles
  split
  · split
    · simp [countGen, countVal]
    · split <;> exact ⟨rfl, Nat.le_refl 1⟩
  · simp [countGen, countVal]

/-- Reduction of the extended handler past input validation, generation and
parsing. -/
theorem handleMutation003_reduce
    (body : Option Json) (w : World) (s : String) (data : Json)
    (hb : jsTruthy (bodyField body "base_molecule") = true)
    (hm : jsTruthy (bodyField body "mutation") = true)
    (hg : w.gen = GenOutcome.content (some s))
    (hp : w.parse s = some data) :
    handleMutation003 body w =
      ((afterParse003 data w).1, Event.genCall :: (afterParse003 data w).2) := by
  simp [handleMutation003, hb, hm, hg, hp]

/-- When the validator's verdict object has a falsy `valid` field, the
response assembly yields the 400 rejection payload. -/
theorem mkResponse003_invalid (w : World) (data : Json) (vl : List (String × Json))
    (bg : Option Json)
    (hdata : data ≠ Json.null)
    (hinvalid : jsTruthy (lookupKey vl "valid") = false) :
    mkResponse003 w data (Json.obj vl) bg = ⟨400, rejectionBody data (Json.obj vl)⟩ := by
  cases data <;> simp [mkResponse003, getF, hinvalid] at hdata ⊢

/-- When the validator's verdict object has a truthy `valid` field, the
response assembly yields the 200 success payload. -/
theorem mkResponse003_valid (w : World) (data : Json) (vl : List (String × Json))
    (bg : Option Json)
    (hdata : data ≠ Json.null)
    (hvalid : jsTruthy (lookupKey vl "valid") = true) :
    mkResponse003 w data (Json.obj vl) bg =
      ⟨200, responsePayload data (Json.obj vl) bg⟩ := by
  cases data <;> simp [mkResponse003, getF, hvalid] at hdata ⊢

/-- Field readback of the rejection body. -/
theorem rejectionBody_lookups (data rdkit : Json) :
    getF (rejectionBody data rdkit) "ok" = some (Json.bool false) ∧
    getF (rejectionBody data rdkit) "error" =
      some (Json.str "RDKit rejected the mutated SMILES prediction.") ∧
    getF (rejectionBody data rdkit) "rdkit_error" = getF rdkit "error" ∧
    getF (rejectionBody data rdkit) "ai_structures" = getF data "structures" ∧
    getF (rejectionBody data rdkit) "analysis" =
      some (analysisMinusStructures data) := by
  refine ⟨?_, ?_, ?_, ?_, ?_⟩
  · simp [rejectionBody, getF_mkObj, lookupOpt]
  · simp [rejectionBody, getF_mkObj, lookupOpt]
  · cases hx : getF rdkit "error" <;> simp [rejectionBody, getF_mkObj, lookupOpt, hx]
  · cases hx : getF data "structures" <;> simp [rejectionBody, getF_mkObj, lookupOpt, hx]
  · simp [rejectionBody, getF_mkObj, lookupOpt]

/-- Field readback of the success body. -/
theorem responsePayload_lookups (data rdkit : Json) (bg : Option Json) :
    getF (responsePayload data rdkit bg) "ok" = some (Json.bool true) ∧
    getF (responsePayload data rdkit bg) "ai_structures" = getF data "structures" ∧
    getF (responsePayload data rdkit bg) "summary" = getF data "summary" ∧
    getF (responsePayload data rdkit bg) "key_changes" = getF data "key_changes" ∧
    getF (responsePayload data rdkit bg) "mechanisms" = getF data "mechanisms" ∧
    getF (responsePayload data rdkit bg) "example_reactions" = getF data "example_reactions" ∧
    getF (responsePayload data rdkit bg) "explanation_levels" = getF data "explanation_levels" ∧
    getF (responsePayload data rdkit bg) "iupac_names" = getF data "iupac_names" ∧
    optGet (getF (responsePayload data rdkit bg) "canonical_structures")
      "mutated_smiles_canonical" = getF rdkit "canonical_smiles" := by
  refine ⟨?_, ?_, ?_, ?_, ?_, ?_, ?_, ?_, ?_⟩
  · simp [responsePayload, getF_mkObj, lookupOpt]
  · cases hx : getF data "structures" <;> simp [responsePayload, getF_mkObj, lookupOpt, hx]
  · cases hx : getF data "summary" <;> simp [responsePayload, getF_mkObj, lookupOpt, hx]
  · cases hx : getF data "key_changes" <;> simp [responsePayload, getF_mkObj, lookupOpt, hx]
  · cases hx : getF data "mechanisms" <;> simp [responsePayload, getF_mkObj, lookupOpt, hx]
  · cases hx : getF data "example_reactions" <;> simp [responsePayload, getF_mkObj, lookupOpt, hx]
  · cases hx : getF data "explanation_levels" <;> simp [responsePayload, getF_mkObj, lookupOpt, hx]
  · cases hx : getF data "iupac_names" <;> simp [responsePayload, getF_mkObj, lookupOpt, hx]
  · have h1 : getF (responsePayload data rdkit bg) "canonical_structures" =
        some (mkObj [("mutated_smiles_canonical", getF rdkit "canonical_smiles"),
                     ("base_smiles_guess", bg)]) := by
      simp [responsePayload, getF_mkObj, lookupOpt]
    rw [h1]
    cases hx : getF rdkit "canonical_smiles" <;>
      simp [optGet, mkObj, getF, lookupKey_mkFields, lookupOpt, hx]

/-- When the parsed result carries all seven schema fields, the success body's
top-level keys are these nine. -/
theorem responsePayload_topKeys (dl : List (String × Json)) (rdkit : Json)
    (bg : Option Json)
    (st vsum vkc vmech vex vlev viu : Json)
    (hstructs : lookupKey dl "structures" = some st)
    (hsum : lookupKey dl "summary" = some vsum)
    (hkc : lookupKey dl "key_changes" = some vkc)
    (hmech : lookupKey dl "mechanisms" = some vmech)
    (hex : lookupKey dl "example_reactions" = some vex)
    (hlev : lookupKey dl "explanation_levels" = some vlev)
    (hiu : lookupKey dl "iupac_names" = some viu) :
    Json.topKeys (responsePayload (Json.obj dl) rdkit bg) =
      ["ok", "canonical_structures", "ai_structures", "summary", "key_changes",
       "mechanisms", "example_reactions", "explanation_levels", "iupac_names"] := by
  simp [responsePayload, mkObj, mkFields, Json.topKeys, getF,
        hstructs, hsum, hkc, hmech, hex, hlev, hiu]

/-- Shape of the extended handler's response when the parsed result carries a
non-empty mutated-SMILES guess and the validator accepts it. -/
theorem handleMutation003_success_shape
    (body : Option Json) (w : World) (s : String) (dl vl : List (String × Json)) (g : String)
    (hb : jsTruthy (bodyField body "base_molecule") = true)
    (hm : jsTruthy (bodyField body "mutation") = true)
    (hg : w.gen = GenOutcome.content (some s))
    (hp : w.parse s = some (Json.obj dl))
    (hguess : optGet (optGet (some (Json.obj dl)) "structures") "mutated_smiles_guess" =
      some (Json.str g))
    (hgne : g ≠ "")
    (hvr : w.validator g = ValidatorResponse.payload (Json.obj vl))
    (hvalid : jsTruthy (lookupKey vl "valid") = true) :
    (handleMutation003 body w).1 =
      ⟨200, responsePayload (Json.obj dl) (Json.obj vl)
        (jsOrNull (optGet (optGet (some (Json.obj dl)) "structures") "base_smiles_guess"))⟩ := by
  have hred := handleMutation003_reduce body w s (Json.obj dl) hb hm hg hp
  have hval' : validateSmiles
      (jsOrNull (optGet (optGet (some (Json.obj dl)) "structures") "mutated_smiles_guess"))
      w.validator = (Json.obj vl, [Event.validateCall g]) := by
    rw [hguess]
    simp [jsOrNull, jsTruthy, Json.truthy, hgne, validateSmiles, hvr]
  rw [hred]
  show mkResponse003 w (Json.obj dl)
      (validateSmiles (jsOrNull (optGet (optGet (some (Json.obj dl)) "structures")
        "mutated_smiles_guess")) w.validator).1
      (jsOrNull (optGet (optGet (some (Json.obj dl)) "structures") "base_smiles_guess")) = _
  rw [hval']
  exact mkResponse003_valid w (Json.obj dl) vl _ (by simp) hvalid

/-! ## Claims -/

/-- C2: for every inbound request body in which `base_molecule` or `mutation`
is missing or falsy, each handler variant returns HTTP 400 with the BadInput
error object (`{ error: "base_molecule and mutation are required." }`) and
issues zero outbound backend calls. -/
theorem missing_fields_rejected_without_backend_calls
    (body : Option Json) (w : World)
    (h : jsTruthy (bodyField body "base_molecule") = false ∨
         jsTruthy (bodyField body "mutation") = false) :
    handleMutation003 body w = (badInputResponse, []) ∧
    handleMutation001 body w = (badInputResponse, []) ∧
    handleMutationBasic body w = (badInputResponse, []) := by
  have hcond : (!(jsTruthy (bodyField body "base_molecule")) ||
      !(jsTruthy (bodyField body "mutation"))) = true := by
    rcases h with h | h <;> simp [h]
  exact ⟨by simp [handleMutation003, hcond], by simp [handleMutation001, hcond],
         by simp [handleMutationBasic, hcond]⟩

theorem missing_fields_rejected_without_backend_calls_witness :
    handleMutation003 (some (Json.obj [("base_molecule", Json.str "ethanol")]))
        sampleWorldValid = (badInputResponse, []) ∧
    handleMutation001 (some (Json.obj [("base_molecule", Json.str "ethanol")]))
        sampleWorldValid = (badInputResponse, []) ∧
    handleMutationBasic (some (Json.obj [("base_molecule", Json.str "ethanol")]))
        sampleWorldValid = (badInputResponse, []) :=
  missing_fields_rejected_without_backend_calls _ _ (Or.inr rfl)

/-- C9: the handlers are deterministic and request-independent — two runs on
the same request body, with the generation backend and validator returning
the same responses, produce the same HTTP status, body, and outbound calls.
The embedding is a pure function of the request body and the backends'
behaviour because the source keeps no mutable module state between requests
(the client objects only hold configuration). -/
theorem handler_runs_deterministic
    (b₁ b₂ : Option Json) (w₁ w₂ : World) (hb : b₁ = b₂) (hw : w₁ = w₂) :
    handleMutation003 b₁ w₁ = handleMutation003 b₂ w₂ ∧
    handleMutation001 b₁ w₁ = handleMutation001 b₂ w₂ ∧
    handleMutationBasic b₁ w₁ = handleMutationBasic b₂ w₂ := by
  subst hb; subst hw; exact ⟨rfl, rfl, rfl⟩

theorem handler_runs_deterministic_witness :
    handleMutation003 sampleBody sampleWorldValid = handleMutation003 sampleBody sampleWorldValid ∧
    handleMutation001 sampleBody sampleWorldValid = handleMutation001 sampleBody sampleWorldValid ∧
    handleMutationBasic sampleBody sampleWorldValid = handleMutationBasic sampleBody sampleWorldValid :=
  handler_runs_deterministic sampleBody sampleBody sampleWorldValid sampleWorldValid rfl rfl

/-- C8: for every inbound request, the extended handler issues at most one
generation-backend call and at most one structure-validation call — no
outbound call is made twice, and no failure path retries. -/
theorem at_most_one_call_per_request (body : Option Json) (w : World) :
    countGen (handleMutation003 body w).2 ≤ 1 ∧
    countVal (handleMutation003 body w).2 ≤ 1 := by
  have htrace : ∀ data : Json,
      countGen (Event.genCall :: (afterParse003 data w).2) ≤ 1 ∧
      countVal (Event.genCall :: (afterParse003 data w).2) ≤ 1 := by
    intro data
    obtain ⟨h1, h2⟩ := validateSmiles_trace
      (jsOrNull (optGet (optGet (some data) "structures") "mutated_smiles_guess")) w.validator
    simp [countGen, countVal, afterParse003, List.countP_cons] at h1 h2 ⊢
    exact ⟨h1, h2⟩
  unfold handleMutation003
  split
  · simp [countGen, countVal]
  · split
    · simp [countGen, countVal]
    · split
      · exact htrace Json.null
      · split
        · simp [countGen, countVal]
        · exact htrace _

/-- C5 counterexample: on a transport failure of the RDKit backend,
`validateSmiles` returns the error string `"RDKit service error"`, not the
`"validator service error"` stated by the claim. -/
theorem validator_error_string_counterexample :
    (validateSmiles (some (Json.str "C")) (fun _ => ValidatorResponse.transportError)).1 =
      rdkitServiceError ∧
    getF rdkitServiceError "error" = some (Json.str "RDKit service error") ∧
    Json.str "RDKit service error" ≠ Json.str "validator service error" := by
  refine ⟨rfl, rfl, ?_⟩
  intro h
  simp at h

/-- C5 (amended): for every candidate SMILES string, if the call to the RDKit
backend raises a transport error, `validateSmiles` never raises outward and
instead returns `{ valid: false, error: "RDKit service error" }`. -/
theorem validator_unreachable_yields_invalid
    (s : String) (validator : String → ValidatorResponse)
    (hs : s ≠ "") (hv : validator s = ValidatorResponse.transportError) :
    validateSmiles (some (Json.str s)) validator =
      (rdkitServiceError, [Event.validateCall s]) := by
  simp [validateSmiles, hv, hs]

theorem validator_unreachable_yields_invalid_witness :
    validateSmiles (some (Json.str "C")) (fun _ => ValidatorResponse.transportError) =
      (rdkitServiceError, [Event.validateCall "C"]) :=
  validator_unreachable_yields_invalid "C" _ (by simp) rfl

/-- C7 counterexample: for an absent candidate, `validateSmiles` returns the
error string `"No SMILES provided"`, not the `"No identifier provided"`
stated by the claim. -/
theorem no_smiles_string_counterexample :
    validateSmiles none (fun _ => ValidatorResponse.transportError) =
      (noSmilesProvided, []) ∧
    getF noSmilesProvided "error" = some (Json.str "No SMILES provided") ∧
    Json.str "No SMILES provided" ≠ Json.str "No identifier provided" := by
  refine ⟨rfl, rfl, ?_⟩
  intro h
  simp at h

/-- C7 (amended): for every candidate that is null, absent, empty, or not a
string, `validateSmiles` returns `{ valid: false, error: "No SMILES provided" }`
immediately, without issuing any network call to the validation backend. -/
theorem no_smiles_rejected_without_network
    (cand : Option Json) (validator : String → ValidatorResponse)
    (hc : ∀ s : String, s ≠ "" → cand ≠ some (Json.str s)) :
    validateSmiles cand validator = (noSmilesProvided, []) := by
  rcases cand with _ | j
  · rfl
  · cases j
    case str s =>
      rcases eq_or_ne s "" with h | h
      · subst h; rfl
      · exact absurd rfl (hc s h)
    all_goals rfl

/-- C4: for every request where the generation backend returns empty content,
the part_001 pipeline fails with the `"No content returned from OpenAI."`
diagnostic surfaced as an HTTP 500 error object, and this failure is
distinguishable from the one produced when the backend returns non-empty but
unparseable text. -/
theorem empty_content_distinguished :
    (∀ (body : Option Json) (w : World),
        jsTruthy (bodyField body "base_molecule") = true →
        jsTruthy (bodyField body "mutation") = true →
        (w.gen = GenOutcome.content none ∨ w.gen = GenOutcome.content (some "")) →
        handleMutation001 body w =
          (err500 "No content returned from OpenAI.", [Event.genCall])) ∧
    (∀ (body : Option Json) (w : World) (s : String),
        jsTruthy (bodyField body "base_molecule") = true →
        jsTruthy (bodyField body "mutation") = true →
        w.gen = GenOutcome.content (some s) → s ≠ "" → w.parse s = none →
        handleMutation001 body w =
          (err500 "Failed to parse JSON from model. Check schema / response_format.",
           [Event.genCall])) ∧
    err500 "No content returned from OpenAI." ≠
      err500 "Failed to parse JSON from model. Check schema / response_format." := by
  refine ⟨?_, ?_, ?_⟩
  · intro body w hb hm hg
    rcases hg with hg | hg <;> simp [handleMutation001, hb, hm, hg]
  · intro body w s hb hm hg hs hp
    simp [handleMutation001, hb, hm, hg, hs, hp]
  · intro h
    simp [err500] at h

theorem empty_content_distinguished_witness :
    handleMutation001 sampleBody sampleWorldNoContent =
      (err500 "No content returned from OpenAI.", [Event.genCall]) ∧
    handleMutation001 sampleBody sampleWorldBadJson =
      (err500 "Failed to parse JSON from model. Check schema / response_format.",
       [Event.genCall]) :=
  ⟨empty_content_distinguished.1 sampleBody sampleWorldNoContent rfl rfl (Or.inl rfl),
   empty_content_distinguished.2.1 sampleBody sampleWorldBadJson "oops" rfl rfl rfl
     (by simp) rfl⟩

/-- C1: in the extended variant, whenever the validator's verdict on the
candidate SMILES is falsy (`valid=false`), the handler returns the 400
rejection payload whose body carries the validator's error (`rdkit_error`),
the AI-proposed `structures` object (`ai_structures`), and the full
analysis-minus-structures content; the parsed result is never silently
dropped. -/
theorem invalid_structure_returns_rejection_payload
    (body : Option Json) (w : World) (s : String) (dl vl : List (String × Json))
    (hb : jsTruthy (bodyField body "base_molecule") = true)
    (hm : jsTruthy (bodyField body "mutation") = true)
    (hg : w.gen = GenOutcome.content (some s))
    (hp : w.parse s = some (Json.obj dl))
    (hv : (validateSmiles
        (jsOrNull (optGet (optGet (some (Json.obj dl)) "structures") "mutated_smiles_guess"))
        w.validator).1 = Json.obj vl)
    (hinvalid : jsTruthy (lookupKey vl "valid") = false) :
    (handleMutation003 body w).1.status = 400 ∧
    getF (handleMutation003 body w).1.body "error" =
      some (Json.str "RDKit rejected the mutated SMILES prediction.") ∧
    getF (handleMutation003 body w).1.body "rdkit_error" = lookupKey vl "error" ∧
    getF (handleMutation003 body w).1.body "ai_structures" = lookupKey dl "structures" ∧
    getF (handleMutation003 body w).1.body "analysis" =
      some (analysisMinusStructures (Json.obj dl)) ∧
    optGet (getF (handleMutation003 body w).1.body "analysis") "summary" =
      lookupKey dl "summary" ∧
    optGet (getF (handleMutation003 body w).1.body "analysis") "key_changes" =
      lookupKey dl "key_changes" ∧
    optGet (getF (handleMutation003 body w).1.body "analysis") "mechanisms" =
      lookupKey dl "mechanisms" ∧
    optGet (getF (handleMutation003 body w).1.body "analysis") "example_reactions" =
      lookupKey dl "example_reactions" ∧
    optGet (getF (handleMutation003 body w).1.body "analysis") "explanation_levels" =
      lookupKey dl "explanation_levels" ∧
    optGet (getF (handleMutation003 body w).1.body "analysis") "iupac_names" =
      lookupKey dl "iupac_names" := by
  have hred := handleMutation003_reduce body w s (Json.obj dl) hb hm hg hp
  have h1 : (handleMutation003 body w).1 = ⟨400, rejectionBody (Json.obj dl) (Json.obj vl)⟩ := by
    rw [hred]
    show mkResponse003 w (Json.obj dl)
        (validateSmiles (jsOrNull (optGet (optGet (some (Json.obj dl)) "structures")
          "mutated_smiles_guess")) w.validator).1
        (jsOrNull (optGet (optGet (some (Json.obj dl)) "structures") "base_smiles_guess")) = _
    rw [hv]
    exact mkResponse003_invalid w (Json.obj dl) vl _ (by simp) hinvalid
  obtain ⟨hok, herr, hrd, hai, hana⟩ := rejectionBody_lookups (Json.obj dl) (Json.obj vl)
  obtain ⟨f1, f2, f3, f4, f5, f6⟩ := analysisMinusStructures_fields (Json.obj dl)
  rw [h1]
  exact ⟨rfl, herr, hrd, hai, hana,
         by rw [hana]; exact f1, by rw [hana]; exact f2, by rw [hana]; exact f3,
         by rw [hana]; exact f4, by rw [hana]; exact f5, by rw [hana]; exact f6⟩

theorem invalid_structure_returns_rejection_payload_witness :
    (handleMutation003 sampleBody sampleWorldInvalid).1.status = 400 ∧
    getF (handleMutation003 sampleBody sampleWorldInvalid).1.body "error" =
      some (Json.str "RDKit rejected the mutated SMILES prediction.") ∧
    getF (handleMutation003 sampleBody sampleWorldInvalid).1.body "rdkit_error" =
      lookupKey [("valid", Json.bool false), ("error", Json.str "bad identifier")] "error" ∧
    getF (handleMutation003 sampleBody sampleWorldInvalid).1.body "ai_structures" =
      lookupKey sampleDataList "structures" ∧
    getF (handleMutation003 sampleBody sampleWorldInvalid).1.body "analysis" =
      some (analysisMinusStructures (Json.obj sampleDataList)) ∧
    optGet (getF (handleMutation003 sampleBody sampleWorldInvalid).1.body "analysis")
      "summary" = lookupKey sampleDataList "summary" ∧
    optGet (getF (handleMutation003 sampleBody sampleWorldInvalid).1.body "analysis")
      "key_changes" = lookupKey sampleDataList "key_changes" ∧
    optGet (getF (handleMutation003 sampleBody sampleWorldInvalid).1.body "analysis")
      "mechanisms" = lookupKey sampleDataList "mechanisms" ∧
    optGet (getF (handleMutation003 sampleBody sampleWorldInvalid).1.body "analysis")
      "example_reactions" = lookupKey sampleDataList "example_reactions" ∧
    optGet (getF (handleMutation003 sampleBody sampleWorldInvalid).1.body "analysis")
      "explanation_levels" = lookupKey sampleDataList "explanation_levels" ∧
    optGet (getF (handleMutation003 sampleBody sampleWorldInvalid).1.body "analysis")
      "iupac_names" = lookupKey sampleDataList "iupac_names" :=
  invalid_structure_returns_rejection_payload sampleBody sampleWorldInvalid "T"
    sampleDataList [("valid", Json.bool false), ("error", Json.str "bad identifier")]
    rfl rfl rfl rfl rfl rfl

theorem no_smiles_rejected_without_network_witness :
    validateSmiles (some Json.null) (fun _ => ValidatorResponse.transportError) =
      (noSmilesProvided, []) :=
  no_smiles_rejected_without_network _ _ (by intro s hs h; simp at h)

/-- C6: in the extended variant, when the validator reports `valid=true`, the
handler returns a 200 success payload carrying the full parsed analysis (the
six non-structures fields plus the `structures` object as `ai_structures`)
together with the canonical identifier reported by the validator
(`canonical_structures.mutated_smiles_canonical = rdkitResult.canonical_smiles`). -/
theorem valid_structure_returns_success_payload
    (body : Option Json) (w : World) (s : String) (dl vl : List (String × Json))
    (st : Json) (g : String)
    (hb : jsTruthy (bodyField body "base_molecule") = true)
    (hm : jsTruthy (bodyField body "mutation") = true)
    (hg : w.gen = GenOutcome.content (some s))
    (hp : w.parse s = some (Json.obj dl))
    (hguess : optGet (optGet (some (Json.obj dl)) "structures") "mutated_smiles_guess" =
      some (Json.str g))
    (hgne : g ≠ "")
    (hvr : w.validator g = ValidatorResponse.payload (Json.obj vl))
    (hvalid : jsTruthy (lookupKey vl "valid") = true)
    (hstructs : lookupKey dl "structures" = some st) :
    (handleMutation003 body w).1.status = 200 ∧
    getF (handleMutation003 body w).1.body "ok" = some (Json.bool true) ∧
    getF (handleMutation003 body w).1.body "summary" = lookupKey dl "summary" ∧
    getF (handleMutation003 body w).1.body "key_changes" = lookupKey dl "key_changes" ∧
    getF (handleMutation003 body w).1.body "mechanisms" = lookupKey dl "mechanisms" ∧
    getF (handleMutation003 body w).1.body "example_reactions" =
      lookupKey dl "example_reactions" ∧
    getF (handleMutation003 body w).1.body "explanation_levels" =
      lookupKey dl "explanation_levels" ∧
    getF (handleMutation003 body w).1.body "iupac_names" = lookupKey dl "iupac_names" ∧
    getF (handleMutation003 body w).1.body "ai_structures" = some st ∧
    optGet (getF (handleMutation003 body w).1.body "canonical_structures")
      "mutated_smiles_canonical" = lookupKey vl "canonical_smiles" := by
  have h1 := handleMutation003_success_shape body w s dl vl g hb hm hg hp hguess hgne hvr hvalid
  obtain ⟨hok, hai, hsum, hkc, hmech, hex, hlev, hiu, hcanon⟩ :=
    responsePayload_lookups (Json.obj dl) (Json.obj vl)
      (jsOrNull (optGet (optGet (some (Json.obj dl)) "structures") "base_smiles_guess"))
  rw [h1]
  exact ⟨rfl, hok, hsum, hkc, hmech, hex, hlev, hiu, hai.trans hstructs, hcanon⟩

theorem valid_structure_returns_success_payload_witness :
    (handleMutation003 sampleBody sampleWorldValid).1.status = 200 ∧
    getF (handleMutation003 sampleBody sampleWorldValid).1.body "ok" =
      some (Json.bool true) ∧
    getF (handleMutation003 sampleBody sampleWorldValid).1.body "summary" =
      lookupKey sampleDataList "summary" ∧
    getF (handleMutation003 sampleBody sampleWorldValid).1.body "key_changes" =
      lookupKey sampleDataList "key_changes" ∧
    getF (handleMutation003 sampleBody sampleWorldValid).1.body "mechanisms" =
      lookupKey sampleDataList "mechanisms" ∧
    getF (handleMutation003 sampleBody sampleWorldValid).1.body "example_reactions" =
      lookupKey sampleDataList "example_reactions" ∧
    getF (handleMutation003 sampleBody sampleWorldValid).1.body "explanation_levels" =
      lookupKey sampleDataList "explanation_levels" ∧
    getF (handleMutation003 sampleBody sampleWorldValid).1.body "iupac_names" =
      lookupKey sampleDataList "iupac_names" ∧
    getF (handleMutation003 sampleBody sampleWorldValid).1.body "ai_structures" =
      some (Json.obj [("base_smiles_guess", Json.str "CCO"),
                      ("mutated_smiles_guess", Json.str "CCCl"),
                      ("notes", Json.str "n")]) ∧
    optGet (getF (handleMutation003 sampleBody sampleWorldValid).1.body
      "canonical_structures") "mutated_smiles_canonical" =
      lookupKey [("valid", Json.bool true), ("canonical_smiles", Json.str "CCCl")]
        "canonical_smiles" :=
  valid_structure_returns_success_payload sampleBody sampleWorldValid "T"
    sampleDataList [("valid", Json.bool true), ("canonical_smiles", Json.str "CCCl")]
    (Json.obj [("base_smiles_guess", Json.str "CCO"),
               ("mutated_smiles_guess", Json.str "CCCl"),
               ("notes", Json.str "n")])
    "CCCl" rfl rfl rfl rfl rfl (by simp) rfl rfl rfl

/-- C10: in the extended variant, when the parsed result's
`structures.mutated_smiles_guess` is absent or the empty string, the handler
never returns a success payload: the guess is coerced to `null`, the SMILES
validator reports invalid without any network call (the trace holds only the
generation call), and the request ends in the 400 rejection branch carrying
`rdkit_error: "No SMILES provided"`. -/
theorem empty_guess_never_succeeds
    (body : Option Json) (w : World) (s : String) (dl : List (String × Json))
    (hb : jsTruthy (bodyField body "base_molecule") = true)
    (hm : jsTruthy (bodyField body "mutation") = true)
    (hg : w.gen = GenOutcome.content (some s))
    (hp : w.parse s = some (Json.obj dl))
    (hguess : optGet (optGet (some (Json.obj dl)) "structures") "mutated_smiles_guess" = none ∨
      optGet (optGet (some (Json.obj dl)) "structures") "mutated_smiles_guess" =
        some (Json.str "")) :
    (handleMutation003 body w).1.status = 400 ∧
    getF (handleMutation003 body w).1.body "ok" = some (Json.bool false) ∧
    getF (handleMutation003 body w).1.body "rdkit_error" =
      some (Json.str "No SMILES provided") ∧
    (handleMutation003 body w).2 = [Event.genCall] := by
  have hred := handleMutation003_reduce body w s (Json.obj dl) hb hm hg hp
  have hval' : validateSmiles
      (jsOrNull (optGet (optGet (some (Json.obj dl)) "structures") "mutated_smiles_guess"))
      w.validator = (noSmilesProvided, []) := by
    rcases hguess with hx | hx <;> rw [hx] <;> rfl
  have h1 : (handleMutation003 body w).1 =
      ⟨400, rejectionBody (Json.obj dl) noSmilesProvided⟩ := by
    rw [hred]
    show mkResponse003 w (Json.obj dl)
        (validateSmiles (jsOrNull (optGet (optGet (some (Json.obj dl)) "structures")
          "mutated_smiles_guess")) w.validator).1
        (jsOrNull (optGet (optGet (some (Json.obj dl)) "structures") "base_smiles_guess")) = _
    rw [hval']
    exact mkResponse003_invalid w (Json.obj dl)
      [("valid", Json.bool false), ("error", Json.str "No SMILES provided")] _
      (by simp) rfl
  have h2 : (handleMutation003 body w).2 = [Event.genCall] := by
    rw [hred]
    show Event.genCall :: (validateSmiles
      (jsOrNull (optGet (optGet (some (Json.obj dl)) "structures") "mutated_smiles_guess"))
      w.validator).2 = _
    rw [hval']
  obtain ⟨hok, herr, hrd, hai, hana⟩ := rejectionBody_lookups (Json.obj dl) noSmilesProvided
  rw [h1] at *
  exact ⟨rfl, hok, hrd.trans rfl, h2⟩

theorem empty_guess_never_succeeds_witness :
    (handleMutation003 sampleBody sampleWorldNoGuess).1.status = 400 ∧
    getF (handleMutation003 sampleBody sampleWorldNoGuess).1.body "ok" =
      some (Json.bool false) ∧
    getF (handleMutation003 sampleBody sampleWorldNoGuess).1.body "rdkit_error" =
      some (Json.str "No SMILES provided") ∧
    (handleMutation003 sampleBody sampleWorldNoGuess).2 = [Event.genCall] :=
  empty_guess_never_succeeds sampleBody sampleWorldNoGuess "T" sampleDataNoGuessList
    rfl rfl rfl rfl (Or.inl rfl)

/-- C3 counterexample: at the spec's concrete scenario run through the
extended variant with an accepting validator, the success response carries
top-level keys beyond the schema's declared required fields (`ok`,
`canonical_structures`, `ai_structures`) and no `structures` key, so the
success payload does not consist of exactly the declared fields. -/
theorem success_payload_extra_keys_counterexample :
    (handleMutation003 sampleBody sampleWorldValid).1.status = 200 ∧
    Json.topKeys (handleMutation003 sampleBody sampleWorldValid).1.body =
      ["ok", "canonical_structures", "ai_structures", "summary", "key_changes",
       "mechanisms", "example_reactions", "explanation_levels", "iupac_names"] :=
  ⟨rfl, rfl⟩

/-- C3 (amended): for well-formed requests with schema-conformant backend
output, the basic variant's response is exactly the parsed backend object
(hence exactly the declared five fields, and equal to the stub's object in
the concrete scenario), while the extended variant's success payload has the
nine top-level keys `ok`, `canonical_structures`, `ai_structures` and the six
non-structures analysis fields — `structures` is renamed to `ai_structures`
and three keys are added. -/
theorem success_payload_shape_amended :
    (∀ (body : Option Json) (w : World) (s : String) (data : Json),
        jsTruthy (bodyField body "base_molecule") = true →
        jsTruthy (bodyField body "mutation") = true →
        w.gen = GenOutcome.content (some s) →
        w.parse s = some data →
        handleMutationBasic body w = (⟨200, data⟩, [Event.genCall])) ∧
    (∀ (body : Option Json) (w : World) (s : String) (dl vl : List (String × Json))
        (g : String) (st vsum vkc vmech vex vlev viu : Json),
        jsTruthy (bodyField body "base_molecule") = true →
        jsTruthy (bodyField body "mutation") = true →
        w.gen = GenOutcome.content (some s) →
        w.parse s = some (Json.obj dl) →
        optGet (optGet (some (Json.obj dl)) "structures") "mutated_smiles_guess" =
          some (Json.str g) →
        g ≠ "" →
        w.validator g = ValidatorResponse.payload (Json.obj vl) →
        jsTruthy (lookupKey vl "valid") = true →
        lookupKey dl "structures" = some st →
        lookupKey dl "summary" = some vsum →
        lookupKey dl "key_changes" = some vkc →
        lookupKey dl "mechanisms" = some vmech →
        lookupKey dl "example_reactions" = some vex →
        lookupKey dl "explanation_levels" = some vlev →
        lookupKey dl "iupac_names" = some viu →
        (handleMutation003 body w).1.status = 200 ∧
        Json.topKeys (handleMutation003 body w).1.body =
          ["ok", "canonical_structures", "ai_structures", "summary", "key_changes",
           "mechanisms", "example_reactions", "explanation_levels", "iupac_names"]) := by
  constructor
  · intro body w s data hb hm hg hp
    simp [handleMutationBasic, hb, hm, hg, hp]
  · intro body w s dl vl g st vsum vkc vmech vex vlev viu hb hm hg hp hguess hgne hvr
      hvalid hstructs hsum hkc hmech hex hlev hiu
    have h1 := handleMutation003_success_shape body w s dl vl g hb hm hg hp hguess hgne
      hvr hvalid
    rw [h1]
    exact ⟨rfl, responsePayload_topKeys dl (Json.obj vl) _ st vsum vkc vmech vex vlev viu
      hstructs hsum hkc hmech hex hlev hiu⟩

theorem success_payload_shape_amended_witness :
    handleMutationBasic sampleBody sampleWorldValid =
      (⟨200, sampleData⟩, [Event.genCall]) ∧
    ((handleMutation003 sampleBody sampleWorldValid).1.status = 200 ∧
     Json.topKeys (handleMutation003 sampleBody sampleWorldValid).1.body =
       ["ok", "canonical_structures", "ai_structures", "summary", "key_changes",
        "mechanisms", "example_reactions", "explanation_levels", "iupac_names"]) :=
  ⟨success_payload_shape_amended.1 sampleBody sampleWorldValid "T" sampleData
     rfl rfl rfl rfl,
   success_payload_shape_amended.2 sampleBody sampleWorldValid "T"
     sampleDataList [("valid", Json.bool true), ("canonical_smiles", Json.str "CCCl")]
     "CCCl"
     (Json.obj [("base_smiles_guess", Json.str "CCO"),
                ("mutated_smiles_guess", Json.str "CCCl"),
                ("notes", Json.str "n")])
     (Json.str "s") (Json.obj []) (Json.obj []) (Json.arr []) (Json.obj []) (Json.obj [])
     rfl rfl rfl rfl rfl (by simp) rfl rfl rfl rfl rfl rfl rfl rfl rfl⟩

end MoleculeMutation
